import Mathlib

/-!
Shallow embedding of the HTTP client layer of the kitabghar frontend
(src/api/advancedAxios.js, src/context/AuthContext.js, src/api/adminAPI.js):
the response cache, the retry helper, the apiWrapper methods, and the
response interceptor with its 401-refresh branch and status switch.
Machine time is modelled as a Nat of milliseconds; response payloads as
strings; localStorage as a record of the three named slots the code uses.
-/

namespace Kitabghar

/-- Response payload (an arbitrary JSON-like value in the source). -/
abbrev Data := String

/-- The shape of an axios error as the interceptor reads it:
status is the optional HTTP status of the response, code the optional
transport error code, message the error message. -/
structure ErrorInfo where
  status : Option Nat
  code : Option String
  message : String
deriving Repr, DecidableEq

/-- A fulfilled axios response: status and data. -/
structure Response where
  status : Nat
  data : Data
deriving Repr, DecidableEq

/-- Outcome of one network call as seen past axios: fulfilled response
or rejected error. -/
inductive NetResult where
  | ok (resp : Response)
  | err (e : ErrorInfo)
deriving Repr, DecidableEq

/- ===== Cache (advancedAxios.js section 6) ===== -/

/-- One cache entry as stored by setCachedData. -/
structure CacheEntry where
  data : Data
  timestamp : Nat
deriving Repr, DecidableEq

/-- The cache Map, as an association list keyed by the cache key string. -/
abbrev Cache := List (String × CacheEntry)

/-- Map.get: the entry bound to the key, if any. -/
def cacheLookup (c : Cache) (key : String) : Option CacheEntry :=
  (c.find? (fun kv => kv.1 == key)).map (fun kv => kv.2)

/-- Map.delete: remove any binding of the key. -/
def cacheDelete (c : Cache) (key : String) : Cache :=
  c.filter (fun kv => kv.1 != key)

/-- Map.set: bind the key, replacing any earlier binding. -/
def cacheSet (c : Cache) (key : String) (e : CacheEntry) : Cache :=
  (key, e) :: cacheDelete c key

/-- CACHE_DURATION = 5 * 60 * 1000 milliseconds. -/
def CACHE_DURATION : Nat := 5 * 60 * 1000

/-- getCachedData: return the entry data if present and fresh, else
delete the key and return null.  Returns the read result and the cache
after the call. -/
def getCachedData (now : Nat) (c : Cache) (key : String) : Option Data × Cache :=
  match cacheLookup c key with
  | some cached =>
    if now - cached.timestamp < CACHE_DURATION then (some cached.data, c)
    else (none, cacheDelete c key)
  | none => (none, cacheDelete c key)

/-- setCachedData: store data under the key with the current timestamp. -/
def setCachedData (now : Nat) (c : Cache) (key : String) (d : Data) : Cache :=
  cacheSet c key ⟨d, now⟩

/- ===== apiWrapper.get (advancedAxios.js section 7) ===== -/

/-- The parts of the axios config that apiWrapper.get consults:
the serialized params object (JSON.stringify of config.params, with the
serialization of the empty object when absent) and the skipCache flag. -/
structure GetConfig where
  paramsJson : String
  skipCache : Bool
deriving Repr, DecidableEq

instance {ε α : Type} [DecidableEq ε] [DecidableEq α] : DecidableEq (Except ε α) :=
  fun a b =>
    match a, b with
    | .error e1, .error e2 =>
      if h : e1 = e2 then .isTrue (congrArg _ h)
      else .isFalse (fun hh => h (Except.error.inj hh))
    | .error _, .ok _ => .isFalse Except.noConfusion
    | .ok _, .error _ => .isFalse Except.noConfusion
    | .ok a1, .ok a2 =>
      if h : a1 = a2 then .isTrue (congrArg _ h)
      else .isFalse (fun hh => h (Except.ok.inj hh))

/-- Result of one apiWrapper.get call: the value returned or error
thrown, the cache afterwards, and how many network calls were made. -/
structure GetOutcome where
  result : Except ErrorInfo Data
  cache : Cache
  networkCalls : Nat
deriving Repr, DecidableEq

/-- JS truthiness of a payload: the empty string is the falsy value of
the payload type used here (the read path of apiWrapper.get tests the
cached payload itself, not its presence). -/
def jsTruthy (d : Data) : Bool := d != ""

/-- apiWrapper.get: build the cache key, consult the cache unless
skipCache and return early only when the cached payload is truthy,
otherwise call the network and cache the payload when the status is 200
and skipCache is unset.  net is the outcome the network would produce
for this call. -/
def apiWrapperGet (net : NetResult) (now : Nat) (c : Cache) (url : String)
    (cfg : GetConfig) : GetOutcome :=
  let cacheKey := "GET_" ++ url ++ "_" ++ cfg.paramsJson
  let checked :=
    if cfg.skipCache = false then getCachedData now c cacheKey else (none, c)
  let hit : Option Data :=
    match checked.1 with
    | some cached => if jsTruthy cached then some cached else none
    | none => none
  match hit with
  | some cached => ⟨.ok cached, checked.2, 0⟩
  | none =>
    match net with
    | .err e => ⟨.error e, checked.2, 1⟩
    | .ok resp =>
      if resp.status = 200 ∧ cfg.skipCache = false then
        ⟨.ok resp.data, setCachedData now checked.2 cacheKey resp.data, 1⟩
      else
        ⟨.ok resp.data, checked.2, 1⟩

/- ===== substring test (JS String.prototype.includes) ===== -/

/-- Does the second list start with the first? -/
def listStartsWith : List Char → List Char → Bool
  | [], _ => true
  | _ :: _, [] => false
  | p :: ps, c :: cs => p == c && listStartsWith ps cs

/-- Does the second list contain the first as a contiguous sublist? -/
def listIncludes (pat : List Char) : List Char → Bool
  | [] => pat.isEmpty
  | c :: cs => listStartsWith pat (c :: cs) || listIncludes pat cs

/-- JS s.includes(pat): substring containment. -/
def strIncludes (s pat : String) : Bool :=
  listIncludes pat.toList s.toList

/- ===== apiWrapper.put / apiWrapper.delete ===== -/

/-- JS String.prototype.split with a one-character separator, on char
lists: the list of separated pieces, keeping empty pieces. -/
def splitChars (sep : Char) : List Char → List (List Char)
  | [] => [[]]
  | c :: cs =>
    if c == sep then [] :: splitChars sep cs
    else
      match splitChars sep cs with
      | [] => [[c]]
      | h :: t => (c :: h) :: t

/-- JS url.split(sep) for a one-character separator. -/
def strSplit (s : String) (sep : Char) : List String :=
  (splitChars sep s.toList).map String.mk

/-- apiWrapper.put: perform the PUT; on success delete every cache entry
whose key contains url.split('/')[0]. -/
def apiWrapperPut (net : NetResult) (c : Cache) (url : String) :
    Except ErrorInfo Data × Cache :=
  match net with
  | .err e => (.error e, c)
  | .ok resp =>
    let urlPattern := (strSplit url '/').headD ""
    (.ok resp.data, c.filter (fun kv => !(strIncludes kv.1 urlPattern)))

/-- apiWrapper.delete: perform the DELETE; on success delete every cache
entry whose key contains url.split('/').pop(). -/
def apiWrapperDelete (net : NetResult) (c : Cache) (url : String) :
    Except ErrorInfo Data × Cache :=
  match net with
  | .err e => (.error e, c)
  | .ok resp =>
    let resourceId := (strSplit url '/').getLastD ""
    (.ok resp.data, c.filter (fun kv => !(strIncludes kv.1 resourceId)))

/- ===== retryRequest (advancedAxios.js section 5) and apiWrapper.post ===== -/

/-- Outcome of one retryRequest run: the value of the for-loop (none
models the implicit undefined return when the loop body never runs),
the number of invocations of the wrapped operation, and the list of
waits (milliseconds) performed between attempts. -/
structure RetryRun where
  result : Option (Except ErrorInfo Response)
  invocations : Nat
  waits : List Nat
deriving Repr, DecidableEq

/-- The for-loop of retryRequest: attempt index i, with the given number
of loop iterations remaining; f gives the outcome of the attempt with
each index. -/
def retryAux (f : Nat → Except ErrorInfo Response) (delay maxRetries : Nat) :
    Nat → Nat → RetryRun
  | _, 0 => ⟨none, 0, []⟩
  | i, remaining + 1 =>
    match f i with
    | .ok r => ⟨some (.ok r), 1, []⟩
    | .error e =>
      if i = maxRetries - 1 then ⟨some (.error e), 1, []⟩
      else
        let rest := retryAux f delay maxRetries (i + 1) remaining
        ⟨rest.result, rest.invocations + 1, delay * 2 ^ i :: rest.waits⟩

/-- retryRequest(requestFunc, maxRetries, delay): run the loop from
index 0 with maxRetries iterations available. -/
def retryRequest (f : Nat → Except ErrorInfo Response) (maxRetries delay : Nat) :
    RetryRun :=
  retryAux f delay maxRetries 0 maxRetries

/-- What apiWrapper.post can do: return response.data, reject with the
propagated error, or throw a TypeError by reading .data of undefined. -/
inductive PostResult where
  | ok (d : Data)
  | err (e : ErrorInfo)
  | typeError
deriving Repr, DecidableEq

/-- apiWrapper.post: run retryRequest on the request function with
config.maxRetries (the default 3 when absent) and the default delay,
then return response.data.  Also reports how many times the wrapped
request ran. -/
def apiWrapperPost (f : Nat → Except ErrorInfo Response)
    (maxRetries : Option Nat) : PostResult × Nat :=
  let run := retryRequest f (maxRetries.getD 3) 1000
  (match run.result with
   | some (.ok r) => .ok r.data
   | some (.error e) => .err e
   | none => .typeError, run.invocations)

/- ===== error classification (the response interceptor status switch) ===== -/

/-- The vocabulary of classified error kinds.  Each corresponds to one
branch of the status switch in the response interceptor (each branch
surfaces one toast to the observer). -/
inductive ErrKind where
  | BadRequest | Unauthorized | Forbidden | NotFound | Conflict | Validation
  | RateLimited | ServerError | ServiceUnavailable | Timeout | NetworkError
  | Unknown
deriving Repr, DecidableEq

/-- The status switch of the response interceptor as a mapping from the
error to the kind of the branch taken (the switch on error.response
status, with the default branch testing error.code). -/
def classify (e : ErrorInfo) : ErrKind :=
  if e.status = some 400 then .BadRequest
  else if e.status = some 401 then .Unauthorized
  else if e.status = some 403 then .Forbidden
  else if e.status = some 404 then .NotFound
  else if e.status = some 409 then .Conflict
  else if e.status = some 422 then .Validation
  else if e.status = some 429 then .RateLimited
  else if e.status = some 500 then .ServerError
  else if e.status = some 502 ∨ e.status = some 503 ∨ e.status = some 504 then
    .ServiceUnavailable
  else if e.code = some "ECONNABORTED" then .Timeout
  else if e.code = some "ERR_NETWORK" then .NetworkError
  else .Unknown

/- ===== session storage and the response interceptor ===== -/

/-- The three localStorage slots the client uses. -/
structure Storage where
  adminToken : Option String
  adminUser : Option String
  refreshToken : Option String
deriving Repr, DecidableEq

/-- Browser-visible state: the storage plus whether the window was
navigated to the login page. -/
structure St where
  storage : Storage
  navigatedToLogin : Bool
deriving Repr, DecidableEq

/-- handleAuthFailure: remove adminToken, adminUser and refreshToken
from storage, then set window.location.href to the login page. -/
def handleAuthFailure (_st : St) : St :=
  { storage := ⟨none, none, none⟩, navigatedToLogin := true }

/-- The request descriptor fields the response interceptor touches. -/
structure Request where
  url : String
  retryMarker : Bool
  authHeader : Option String
deriving Repr, DecidableEq

/-- The environment of one intercepted call: the outcome of the refresh
endpoint for a given refresh token, and the outcome of re-issuing the
original request. -/
structure Server where
  refreshResult : String → Except ErrorInfo String
  retryResult : NetResult

/-- Observable trace of one intercepted call: refresh attempts made,
re-issues of the original request, the toast notifications surfaced to
the observer (as the kinds of the switch branches taken, in order), and
how many times handleAuthFailure ran. -/
structure Trace where
  refreshAttempts : Nat
  reissues : Nat
  toasts : List ErrKind
  authFailures : Nat
deriving Repr, DecidableEq

/-- The status switch: one toast of the classified kind; the 401 branch
additionally calls handleAuthFailure. -/
def errorSwitch (st : St) (e : ErrorInfo) : St × ErrKind :=
  (if e.status = some 401 then handleAuthFailure st else st, classify e)

/-- The rejected-response interceptor, fuelled to express the re-entry
of the interceptor on the retried request (the retry marker bounds the
real recursion depth at one, so any fuel of at least 2 is exact).
On 401 without the retry marker: set the marker; if a refresh token is
stored, call the refresh endpoint; on refresh success store the new
token, re-issue the original request and return its outcome (a rejected
retry re-enters this interceptor); on refresh failure run
handleAuthFailure and reject with the refresh error.  Otherwise fall
through to the status switch and reject the error. -/
def interceptErrorFuel (srv : Server) :
    Nat → St → Request → ErrorInfo → Except ErrorInfo Data × St × Trace
  | 0, st, _, e => (.error e, st, ⟨0, 0, [], 0⟩)
  | fuel + 1, st, req, e =>
    if e.status = some 401 ∧ req.retryMarker = false then
      let req1 := { req with retryMarker := true }
      match st.storage.refreshToken with
      | some refreshToken =>
        match srv.refreshResult refreshToken with
        | .ok newToken =>
          let st1 : St :=
            { st with storage := { st.storage with adminToken := some newToken } }
          let req2 := { req1 with authHeader := some ("Bearer " ++ newToken) }
          match srv.retryResult with
          | .ok resp => (.ok resp.data, st1, ⟨1, 1, [], 0⟩)
          | .err e2 =>
            let inner := interceptErrorFuel srv fuel st1 req2 e2
            (inner.1, inner.2.1,
              ⟨inner.2.2.refreshAttempts + 1, inner.2.2.reissues + 1,
               inner.2.2.toasts, inner.2.2.authFailures⟩)
        | .error refreshError =>
          (.error refreshError, handleAuthFailure st, ⟨1, 0, [], 1⟩)
      | none =>
        let sw := errorSwitch st e
        (.error e, sw.1, ⟨0, 0, [sw.2], 1⟩)
    else
      let sw := errorSwitch st e
      (.error e, sw.1, ⟨0, 0, [sw.2], if e.status = some 401 then 1 else 0⟩)

/-- One call through the api instance: a fulfilled response passes
straight through; a rejected one enters the error interceptor. -/
def apiCall (srv : Server) (st : St) (req : Request) (firstResult : NetResult) :
    Except ErrorInfo Data × St × Trace :=
  match firstResult with
  | .ok resp => (.ok resp.data, st, ⟨0, 0, [], 0⟩)
  | .err e => interceptErrorFuel srv 2 st req e

/- ===== the operations that touch the persisted session slots ===== -/

/-- Every code site in the repository that reads or writes the persisted
admin-session slots (adminToken, adminUser, refreshToken): AuthContext,
advancedAxios, adminAPI, and axiosExamples (the module the unnamed
examples file exports, imported by ExampleComponents).  The generic
useLocalStorage hook is defined but never called, and the libraryAPI
token slot named token, and the axiosExamples slot named userToken, are
not admin-session slots. -/
inductive StorageOp where
  /-- AuthContext login: setItem adminToken, setItem adminUser. -/
  | login (token user : String)
  /-- AuthContext logout: removeItem adminToken, removeItem adminUser
  (also invoked from checkAuthStatus on failed verification). -/
  | logout
  /-- The read-only sites: the token-attaching request interceptors
  (advancedAxios, adminAPI, axiosExamples) and the checkAuthStatus
  rehydration read: getItem only. -/
  | attachToken
  /-- advancedAxios response interceptor, refresh success:
  setItem adminToken. -/
  | refreshStore (newToken : String)
  /-- advancedAxios handleAuthFailure: removeItem all three slots. -/
  | authFailure
  /-- adminAPI authApiClient 401 handler: removeItem adminToken,
  removeItem adminUser. -/
  | adminAuth401
  /-- axiosExamples response interceptor, 401 branch: removeItem
  adminToken (it also removes the non-session userToken slot). -/
  | examplesAuth401
  /-- axiosExamples authAPI login, when the response carries a token:
  setItem adminToken, setItem adminUser. -/
  | examplesLogin (token user : String)
  /-- axiosExamples authAPI logout (both its normal and its fallback
  path): removeItem adminToken, removeItem adminUser. -/
  | examplesLogout
deriving Repr, DecidableEq

/-- The effect of each such operation on the persisted slots. -/
def StorageOp.apply : StorageOp → Storage → Storage
  | .login t u, s => { s with adminToken := some t, adminUser := some u }
  | .logout, s => { s with adminToken := none, adminUser := none }
  | .attachToken, s => s
  | .refreshStore t, s => { s with adminToken := some t }
  | .authFailure, _ => ⟨none, none, none⟩
  | .adminAuth401, s => { s with adminToken := none, adminUser := none }
  | .examplesAuth401, s => { s with adminToken := none }
  | .examplesLogin t u, s => { s with adminToken := some t, adminUser := some u }
  | .examplesLogout, s => { s with adminToken := none, adminUser := none }

/-- Is the operation the Session Store login? -/
def StorageOp.isLogin : StorageOp → Bool
  | .login _ _ => true
  | _ => false

/- ===== helper lemmas about the cache map ===== -/

theorem cacheDelete_cons_of_eq (kv : String × CacheEntry) (t : Cache) (key : String)
    (hb : (kv.1 == key) = true) : cacheDelete (kv :: t) key = cacheDelete t key := by
  simp [cacheDelete, List.filter_cons, bne, hb]

theorem cacheDelete_cons_of_ne (kv : String × CacheEntry) (t : Cache) (key : String)
    (hb : (kv.1 == key) = false) : cacheDelete (kv :: t) key = kv :: cacheDelete t key := by
  simp [cacheDelete, List.filter_cons, bne, hb]

theorem cacheLookup_delete_self (c : Cache) (key : String) :
    cacheLookup (cacheDelete c key) key = none := by
  induction c with
  | nil => rfl
  | cons kv t ih =>
    by_cases hb : kv.1 == key
    · rw [cacheDelete_cons_of_eq kv t key hb]; exact ih
    · rw [cacheDelete_cons_of_ne kv t key (by simpa using hb)]
      simpa [cacheLookup, List.find?_cons, hb] using ih

theorem cacheDelete_eq_of_lookup_none (c : Cache) (key : String)
    (h : cacheLookup c key = none) : cacheDelete c key = c := by
  induction c with
  | nil => rfl
  | cons kv t ih =>
    by_cases hb : kv.1 == key
    · simp [cacheLookup, List.find?_cons, hb] at h
    · have ht : cacheLookup t key = none := by
        simpa [cacheLookup, List.find?_cons, hb] using h
      rw [cacheDelete_cons_of_ne kv t key (by simpa using hb), ih ht]

theorem cacheLookup_set_self (c : Cache) (key : String) (e : CacheEntry) :
    cacheLookup (cacheSet c key e) key = some e := by
  simp [cacheSet, cacheLookup, List.find?_cons]

theorem getCachedData_miss_snd (now : Nat) (c : Cache) (key : String)
    (h : (getCachedData now c key).1 = none) :
    (getCachedData now c key).2 = cacheDelete c key := by
  cases hl : cacheLookup c key with
  | none => simp [getCachedData, hl]
  | some cached =>
    by_cases ht : now - cached.timestamp < CACHE_DURATION
    · simp [getCachedData, hl, ht] at h
    · simp [getCachedData, hl, ht]

/- ===== claim theorems ===== -/

/-- C3 (counterexample): with maxRetries = 3 and baseDelay = 1000 and an
operation that fails on every attempt, retryRequest invokes the
operation 3 times, not 4, and the waits are 1000ms and 2000ms, not
0ms, 1000ms, 2000ms. -/
theorem c3_counterexample :
    retryRequest (fun _ => .error ⟨some 500, none, "boom"⟩) 3 1000 =
      ⟨some (.error ⟨some 500, none, "boom"⟩), 3, [1000, 2000]⟩ ∧
    (retryRequest (fun _ => .error ⟨some 500, none, "boom"⟩) 3 1000).invocations ≠ 4 ∧
    (retryRequest (fun _ => .error ⟨some 500, none, "boom"⟩) 3 1000).waits ≠
      [0, 1000, 2000] := by
  refine ⟨rfl, ?_, ?_⟩ <;> decide

/-- C3 (amended): for every call to retryRequest with maxRetries = 3 and
baseDelay = 1000 whose wrapped operation fails on every attempt, the
operation is invoked 3 times, with delays of 1000ms and 2000ms before
the 2nd and 3rd attempts (delay before attempt i, 0-indexed with i at
least 1, equals baseDelay * 2 ^ (i - 1)), and the helper raises the
error observed on the 3rd attempt. -/
theorem c3_retry_backoff (errs : Nat → ErrorInfo) :
    retryRequest (fun i => .error (errs i)) 3 1000 =
      ⟨some (.error (errs 2)), 3, [1000 * 2 ^ 0, 1000 * 2 ^ 1]⟩ := by
  rfl

/-- C7 (confirmed): a cache entry is valid exactly while
now - storedAt < CACHE_DURATION, the fixed constant 5 minutes shared by
all entries; reading a key whose entry has expired is a miss and
removes that entry from the store. -/
theorem c7_ttl_validity (now : Nat) (c : Cache) (key : String) :
    CACHE_DURATION = 5 * 60 * 1000 ∧
    (∀ e, cacheLookup c key = some e → now - e.timestamp < CACHE_DURATION →
      getCachedData now c key = (some e.data, c)) ∧
    (∀ e, cacheLookup c key = some e → ¬ now - e.timestamp < CACHE_DURATION →
      getCachedData now c key = (none, cacheDelete c key) ∧
      cacheLookup (getCachedData now c key).2 key = none) := by
  refine ⟨rfl, ?_, ?_⟩ <;> intro e hl httl <;>
    simp [getCachedData, hl, httl, cacheLookup_delete_self]

/-- C7 witness: a concrete entry stored at time 0 read at exactly the
TTL bound is expired, the read misses, and the entry is gone. -/
theorem c7_ttl_validity_witness :
    cacheLookup [("k", (⟨"v", 0⟩ : CacheEntry))] "k" = some ⟨"v", 0⟩ ∧
    ¬ (300000 : Nat) - 0 < CACHE_DURATION ∧
    (getCachedData 300000 [("k", ⟨"v", 0⟩)] "k" =
        (none, cacheDelete [("k", ⟨"v", 0⟩)] "k") ∧
      cacheLookup (getCachedData 300000 [("k", ⟨"v", 0⟩)] "k").2 "k" = none) :=
  ⟨by decide, by decide,
    (c7_ttl_validity 300000 [("k", ⟨"v", 0⟩)] "k").2.2 ⟨"v", 0⟩ (by decide) (by decide)⟩

/-- C10 (confirmed): retryRequest with maxRetries at most 0 never
invokes the wrapped operation and returns undefined instead of a
response, so apiWrapper.post with config.maxRetries = 0 dereferences
the data field of undefined (a TypeError) rather than performing the
POST. -/
theorem c10_zero_retries (f : Nat → Except ErrorInfo Response) (d m : Nat)
    (h : m ≤ 0) :
    retryRequest f m d = ⟨none, 0, []⟩ ∧
    apiWrapperPost f (some m) = (.typeError, 0) := by
  have hm : m = 0 := Nat.le_zero.mp h
  subst hm
  exact ⟨rfl, rfl⟩

/-- C10 witness: with maxRetries = 0 a POST whose network call would
succeed is never sent and apiWrapper.post throws the TypeError. -/
theorem c10_zero_retries_witness :
    (0 : Nat) ≤ 0 ∧
    (retryRequest (fun _ => .ok ⟨200, "posted"⟩) 0 1000 = ⟨none, 0, []⟩ ∧
      apiWrapperPost (fun _ => .ok ⟨200, "posted"⟩) (some 0) = (.typeError, 0)) :=
  ⟨Nat.le.refl, c10_zero_retries (fun _ => .ok ⟨200, "posted"⟩) 1000 0 Nat.le.refl⟩

/-- C1 (counterexample): a first apiWrapper.get that completes
successfully with status 204 (a 2xx success under the axios default
validateStatus) does not populate the cache, so a second identical call
one millisecond later performs a second network call and returns that
value of that second call instead of the first one, refuting the claim for this pair
of calls. -/
theorem c1_counterexample :
    (apiWrapperGet (.ok ⟨204, "d1"⟩) 0 [] "/books" ⟨"pq", false⟩).result = .ok "d1" ∧
    (apiWrapperGet (.ok ⟨204, "d2"⟩) 1
        (apiWrapperGet (.ok ⟨204, "d1"⟩) 0 [] "/books" ⟨"pq", false⟩).cache
        "/books" ⟨"pq", false⟩).networkCalls = 1 ∧
    (apiWrapperGet (.ok ⟨204, "d2"⟩) 1
        (apiWrapperGet (.ok ⟨204, "d1"⟩) 0 [] "/books" ⟨"pq", false⟩).cache
        "/books" ⟨"pq", false⟩).result ≠ .ok "d1" := by
  refine ⟨rfl, rfl, ?_⟩
  decide

/-- C1 (amended): for every sequence of two calls to apiWrapper.get with
the same url and params (skipCache unset), where the first call misses
the cache and its network call completes with status 200 and a truthy
(non-empty) payload, and the second call occurs within TTL of the first
and no mutating call touches the cache in between, the second call
returns the identical cached value and performs no second network
call. -/
theorem c1_cached_within_ttl (net2 : NetResult) (t1 t2 : Nat) (c : Cache)
    (url : String) (cfg : GetConfig) (d : Data)
    (hskip : cfg.skipCache = false)
    (htr : jsTruthy d = true)
    (hmiss : (getCachedData t1 c ("GET_" ++ url ++ "_" ++ cfg.paramsJson)).1 = none)
    (_hle : t1 ≤ t2) (httl : t2 - t1 < CACHE_DURATION) :
    (apiWrapperGet (.ok ⟨200, d⟩) t1 c url cfg).result = .ok d ∧
    (apiWrapperGet (.ok ⟨200, d⟩) t1 c url cfg).networkCalls = 1 ∧
    (apiWrapperGet net2 t2 (apiWrapperGet (.ok ⟨200, d⟩) t1 c url cfg).cache
        url cfg).result = .ok d ∧
    (apiWrapperGet net2 t2 (apiWrapperGet (.ok ⟨200, d⟩) t1 c url cfg).cache
        url cfg).networkCalls = 0 := by
  have h1 : apiWrapperGet (.ok ⟨200, d⟩) t1 c url cfg =
      ⟨.ok d,
        setCachedData t1 (getCachedData t1 c ("GET_" ++ url ++ "_" ++ cfg.paramsJson)).2
          ("GET_" ++ url ++ "_" ++ cfg.paramsJson) d, 1⟩ := by
    simp [apiWrapperGet, hskip, hmiss]
  have h2 : getCachedData t2
      (setCachedData t1 (getCachedData t1 c ("GET_" ++ url ++ "_" ++ cfg.paramsJson)).2
        ("GET_" ++ url ++ "_" ++ cfg.paramsJson) d)
      ("GET_" ++ url ++ "_" ++ cfg.paramsJson) =
      (some d,
        setCachedData t1 (getCachedData t1 c ("GET_" ++ url ++ "_" ++ cfg.paramsJson)).2
          ("GET_" ++ url ++ "_" ++ cfg.paramsJson) d) := by
    simp [getCachedData, setCachedData, cacheLookup_set_self, httl]
  rw [h1]
  refine ⟨rfl, rfl, ?_, ?_⟩ <;> simp [apiWrapperGet, hskip, h2, htr]

/-- C1 witness: a concrete miss-then-hit pair, where the second call
would even have failed on the network but is served from the cache. -/
theorem c1_cached_within_ttl_witness :
    ((⟨"pq", false⟩ : GetConfig).skipCache = false ∧
      jsTruthy "d1" = true ∧
      (getCachedData 0 [] ("GET_" ++ "/books" ++ "_" ++ "pq")).1 = none ∧
      (0 : Nat) ≤ 1 ∧ (1 : Nat) - 0 < CACHE_DURATION) ∧
    ((apiWrapperGet (.ok ⟨200, "d1"⟩) 0 [] "/books" ⟨"pq", false⟩).result = .ok "d1" ∧
      (apiWrapperGet (.ok ⟨200, "d1"⟩) 0 [] "/books" ⟨"pq", false⟩).networkCalls = 1 ∧
      (apiWrapperGet (.err ⟨some 500, none, "down"⟩) 1
          (apiWrapperGet (.ok ⟨200, "d1"⟩) 0 [] "/books" ⟨"pq", false⟩).cache
          "/books" ⟨"pq", false⟩).result = .ok "d1" ∧
      (apiWrapperGet (.err ⟨some 500, none, "down"⟩) 1
          (apiWrapperGet (.ok ⟨200, "d1"⟩) 0 [] "/books" ⟨"pq", false⟩).cache
          "/books" ⟨"pq", false⟩).networkCalls = 0) :=
  ⟨⟨rfl, by decide, rfl, by decide, by decide⟩,
    c1_cached_within_ttl (.err ⟨some 500, none, "down"⟩) 0 1 [] "/books"
      ⟨"pq", false⟩ "d1" rfl (by decide) rfl (by decide) (by decide)⟩

/-- C4 (code bug): a successful PUT to the url /books/42 computes the
invalidation pattern url.split('/')[0], which is the empty string for a
leading-slash url, so it deletes every cache entry, here one belonging
to the unrelated /users resource; the claim (and the comment in the code,
clearing related entries) says entries of unrelated resource
prefixes are never invalidated. -/
theorem c4_put_clears_unrelated :
    apiWrapperPut (.ok ⟨200, "updated"⟩)
        [("GET_/users_pq", ⟨"u", 0⟩)] "/books/42" =
      (.ok "updated", []) ∧
    (strSplit "/books/42" '/').headD "" = "" := by
  constructor
  · decide
  · decide

/-- C6 (counterexample): a successful apiWrapper.get whose response has
status 201 (a 2xx success) does not store its result in the cache: the
cache stays empty. -/
theorem c6_counterexample :
    (apiWrapperGet (.ok ⟨201, "created"⟩) 0 [] "/books" ⟨"pq", false⟩).result =
      .ok "created" ∧
    (apiWrapperGet (.ok ⟨201, "created"⟩) 0 [] "/books" ⟨"pq", false⟩).cache = [] := by
  exact ⟨rfl, rfl⟩

/-- C6 (amended): a cached read (apiWrapper.get without skipCache) on a
key whose lookup misses (the key is absent or its entry has expired and
is lazily evicted by the lookup) stores its result in the cache if and
only if the response status is exactly 200; for every other response
status and for every failed request no entry is added: the cache after
the call is exactly the cache after the lazy eviction of the key. -/
theorem c6_cache_on_200 (net : NetResult) (now : Nat) (c : Cache)
    (url : String) (cfg : GetConfig)
    (hskip : cfg.skipCache = false)
    (hmiss : (getCachedData now c ("GET_" ++ url ++ "_" ++ cfg.paramsJson)).1 = none) :
    (∀ resp, net = .ok resp →
      (apiWrapperGet net now c url cfg).cache =
        if resp.status = 200 then
          setCachedData now (cacheDelete c ("GET_" ++ url ++ "_" ++ cfg.paramsJson))
            ("GET_" ++ url ++ "_" ++ cfg.paramsJson) resp.data
        else cacheDelete c ("GET_" ++ url ++ "_" ++ cfg.paramsJson)) ∧
    (∀ e, net = .err e →
      (apiWrapperGet net now c url cfg).cache =
        cacheDelete c ("GET_" ++ url ++ "_" ++ cfg.paramsJson)) := by
  have hdel := getCachedData_miss_snd now c
    ("GET_" ++ url ++ "_" ++ cfg.paramsJson) hmiss
  constructor
  · rintro resp rfl
    by_cases hs : resp.status = 200 <;>
      simp [apiWrapperGet, hskip, hmiss, hdel, hs]
  · rintro e rfl
    simp [apiWrapperGet, hskip, hmiss, hdel]

/-- C6 witness: a read on a key holding an expired entry evicts it, and
a 200 response is stored into the evicted cache. -/
theorem c6_cache_on_200_witness :
    ((⟨"pq", false⟩ : GetConfig).skipCache = false ∧
      (getCachedData 300000 [("GET_/books_pq", ⟨"old", 0⟩)]
        ("GET_" ++ "/books" ++ "_" ++ "pq")).1 = none) ∧
    (apiWrapperGet (.ok ⟨200, "new"⟩) 300000 [("GET_/books_pq", ⟨"old", 0⟩)]
        "/books" ⟨"pq", false⟩).cache =
      (if (200 : Nat) = 200 then
        setCachedData 300000
          (cacheDelete [("GET_/books_pq", ⟨"old", 0⟩)] ("GET_" ++ "/books" ++ "_" ++ "pq"))
          ("GET_" ++ "/books" ++ "_" ++ "pq") "new"
      else cacheDelete [("GET_/books_pq", ⟨"old", 0⟩)] ("GET_" ++ "/books" ++ "_" ++ "pq")) :=
  ⟨⟨rfl, by decide⟩,
    (c6_cache_on_200 (.ok ⟨200, "new"⟩) 300000 [("GET_/books_pq", ⟨"old", 0⟩)]
        "/books" ⟨"pq", false⟩ rfl (by decide)).1 ⟨200, "new"⟩ rfl⟩

/-- C2 (counterexample): an original request whose first response is 401
and whose descriptor does not carry the retry marker, in a session with
no stored refresh token, performs zero refresh attempts and zero
re-issues: the 401 falls through to the status switch. -/
theorem c2_counterexample :
    (apiCall ⟨fun _ => .ok "newTok", .ok ⟨200, "d"⟩⟩
        ⟨⟨some "t", some "u", none⟩, false⟩ ⟨"/books", false, none⟩
        (.err ⟨some 401, none, "orig"⟩)).2.2.refreshAttempts = 0 ∧
    (apiCall ⟨fun _ => .ok "newTok", .ok ⟨200, "d"⟩⟩
        ⟨⟨some "t", some "u", none⟩, false⟩ ⟨"/books", false, none⟩
        (.err ⟨some 401, none, "orig"⟩)).2.2.reissues = 0 ∧
    (apiCall ⟨fun _ => .ok "newTok", .ok ⟨200, "d"⟩⟩
        ⟨⟨some "t", some "u", none⟩, false⟩ ⟨"/books", false, none⟩
        (.err ⟨some 401, none, "orig"⟩)).1 = .error ⟨some 401, none, "orig"⟩ :=
  ⟨rfl, rfl, rfl⟩

/-- C2 (amended): for any original request whose first response is 401,
whose descriptor does not carry the retry marker, and for which a
refresh token is present in storage, the client performs exactly one
refresh attempt; if the refresh succeeds it performs exactly one
re-issue of the original request with the retry marker set; if that
retried request also fails, the error propagates with still exactly one
refresh attempt and one re-issue, and a retried 401 is classified
Unauthorized. -/
theorem c2_refresh_once (srv : Server) (st : St) (req : Request)
    (e : ErrorInfo) (rt : String)
    (hretry : req.retryMarker = false) (h401 : e.status = some 401)
    (hrt : st.storage.refreshToken = some rt) :
    (apiCall srv st req (.err e)).2.2.refreshAttempts = 1 ∧
    (∀ tok, srv.refreshResult rt = .ok tok →
      (apiCall srv st req (.err e)).2.2.reissues = 1) ∧
    (∀ tok e2, srv.refreshResult rt = .ok tok → srv.retryResult = .err e2 →
      (apiCall srv st req (.err e)).1 = .error e2 ∧
      (apiCall srv st req (.err e)).2.2.refreshAttempts = 1 ∧
      (apiCall srv st req (.err e)).2.2.reissues = 1 ∧
      (e2.status = some 401 → classify e2 = .Unauthorized)) := by
  cases hr : srv.refreshResult rt with
  | error rerr =>
    refine ⟨?_, ?_, ?_⟩
    · simp [apiCall, interceptErrorFuel, h401, hretry, hrt, hr]
    · intro tok htok; simp at htok
    · intro tok e2 htok; simp at htok
  | ok tok0 =>
    cases hrr : srv.retryResult with
    | ok resp =>
      refine ⟨?_, ?_, ?_⟩
      · simp [apiCall, interceptErrorFuel, h401, hretry, hrt, hr, hrr]
      · intro tok htok
        simp [apiCall, interceptErrorFuel, h401, hretry, hrt, hr, hrr]
      · intro tok e2 htok he2; simp at he2
    | err e2 =>
      have hmain : apiCall srv st req (.err e) =
          (.error e2,
            (errorSwitch ⟨{ st.storage with adminToken := some tok0 }, st.navigatedToLogin⟩ e2).1,
            ⟨1, 1, [classify e2], if e2.status = some 401 then 1 else 0⟩) := by
        simp [apiCall, interceptErrorFuel, h401, hretry, hrt, hr, hrr, errorSwitch]
      refine ⟨?_, ?_, ?_⟩
      · rw [hmain]
      · intro tok htok; rw [hmain]
      · intro tok e2h htok he2
        injection he2 with he2eq
        subst he2eq
        refine ⟨by rw [hmain], by rw [hmain], by rw [hmain], ?_⟩
        intro h401b
        simp [classify, h401b]

/-- C2 witness: a concrete 401, stored refresh token, successful refresh
and a retried request that fails with 401 again. -/
theorem c2_refresh_once_witness :
    ((⟨"/books", false, none⟩ : Request).retryMarker = false ∧
      (⟨some 401, none, "orig"⟩ : ErrorInfo).status = some 401 ∧
      (⟨⟨some "t", some "u", some "r"⟩, false⟩ : St).storage.refreshToken = some "r") ∧
    ((apiCall ⟨fun _ => .ok "t2", .err ⟨some 401, none, "again"⟩⟩
        ⟨⟨some "t", some "u", some "r"⟩, false⟩ ⟨"/books", false, none⟩
        (.err ⟨some 401, none, "orig"⟩)).2.2.refreshAttempts = 1 ∧
      (apiCall ⟨fun _ => .ok "t2", .err ⟨some 401, none, "again"⟩⟩
          ⟨⟨some "t", some "u", some "r"⟩, false⟩ ⟨"/books", false, none⟩
          (.err ⟨some 401, none, "orig"⟩)).1 = .error ⟨some 401, none, "again"⟩ ∧
      (apiCall ⟨fun _ => .ok "t2", .err ⟨some 401, none, "again"⟩⟩
          ⟨⟨some "t", some "u", some "r"⟩, false⟩ ⟨"/books", false, none⟩
          (.err ⟨some 401, none, "orig"⟩)).2.2.reissues = 1 ∧
      classify ⟨some 401, none, "again"⟩ = .Unauthorized) :=
  ⟨⟨rfl, rfl, rfl⟩, by
    have h := c2_refresh_once
      (⟨fun _ => .ok "t2", .err ⟨some 401, none, "again"⟩⟩ : Server)
      ⟨⟨some "t", some "u", some "r"⟩, false⟩ ⟨"/books", false, none⟩
      ⟨some 401, none, "orig"⟩ "r" rfl rfl rfl
    obtain ⟨h1, _h2, h3⟩ := h
    obtain ⟨ha, hb, hc, hd⟩ := h3 "t2" ⟨some 401, none, "again"⟩ rfl rfl
    exact ⟨h1, ha, hc, hd rfl⟩⟩

/-- C5 (counterexample): when the refresh call after a 401 fails, the
client rejects with the error of the refresh call, not with the error
of the original request. -/
theorem c5_counterexample :
    (apiCall ⟨fun _ => .error ⟨some 502, none, "refresh-down"⟩, .ok ⟨200, "d"⟩⟩
        ⟨⟨some "t", some "u", some "r"⟩, false⟩ ⟨"/books", false, none⟩
        (.err ⟨some 401, none, "orig"⟩)).1 =
      .error ⟨some 502, none, "refresh-down"⟩ ∧
    (apiCall ⟨fun _ => .error ⟨some 502, none, "refresh-down"⟩, .ok ⟨200, "d"⟩⟩
        ⟨⟨some "t", some "u", some "r"⟩, false⟩ ⟨"/books", false, none⟩
        (.err ⟨some 401, none, "orig"⟩)).1 ≠ .error ⟨some 401, none, "orig"⟩ := by
  refine ⟨rfl, ?_⟩
  decide

/-- C5 (amended): when the token-refresh call performed after a 401
fails, the client invokes auth-failure handling (clears the three
persisted session slots and navigates to login) and propagates the
error of the refresh call to the caller, with no re-issue and no toast. -/
theorem c5_refresh_failure (srv : Server) (st : St) (req : Request)
    (e : ErrorInfo) (rt : String) (rerr : ErrorInfo)
    (hretry : req.retryMarker = false) (h401 : e.status = some 401)
    (hrt : st.storage.refreshToken = some rt)
    (href : srv.refreshResult rt = .error rerr) :
    apiCall srv st req (.err e) =
      (.error rerr, ⟨⟨none, none, none⟩, true⟩, ⟨1, 0, [], 1⟩) := by
  simp [apiCall, interceptErrorFuel, h401, hretry, hrt, href, handleAuthFailure]

/-- C5 witness: a concrete failing refresh: storage is cleared, the
window navigates to login, and the refresh error is what propagates. -/
theorem c5_refresh_failure_witness :
    ((⟨"/issues", false, none⟩ : Request).retryMarker = false ∧
      (⟨some 401, none, "expired"⟩ : ErrorInfo).status = some 401 ∧
      (⟨⟨some "t1", some "admin", some "rt"⟩, false⟩ : St).storage.refreshToken =
        some "rt" ∧
      (fun (_ : String) => (.error ⟨none, some "ERR_NETWORK", "refresh failed"⟩ :
        Except ErrorInfo String)) "rt" =
        .error ⟨none, some "ERR_NETWORK", "refresh failed"⟩) ∧
    apiCall ⟨fun _ => .error ⟨none, some "ERR_NETWORK", "refresh failed"⟩, .ok ⟨200, "d"⟩⟩
        ⟨⟨some "t1", some "admin", some "rt"⟩, false⟩ ⟨"/issues", false, none⟩
        (.err ⟨some 401, none, "expired"⟩) =
      (.error ⟨none, some "ERR_NETWORK", "refresh failed"⟩,
        ⟨⟨none, none, none⟩, true⟩, ⟨1, 0, [], 1⟩) :=
  ⟨⟨rfl, rfl, rfl, rfl⟩,
    c5_refresh_failure
      ⟨fun _ => .error ⟨none, some "ERR_NETWORK", "refresh failed"⟩, .ok ⟨200, "d"⟩⟩
      ⟨⟨some "t1", some "admin", some "rt"⟩, false⟩ ⟨"/issues", false, none⟩
      ⟨some 401, none, "expired"⟩ "rt" ⟨none, some "ERR_NETWORK", "refresh failed"⟩
      rfl rfl rfl rfl⟩

/-- C8 (counterexample): the refresh-failure path yields a failed call
whose error is surfaced to the observer zero times, not exactly once:
the rejected refresh error bypasses the status switch. -/
theorem c8_counterexample :
    (apiCall ⟨fun _ => .error ⟨some 503, none, "refresh-unavailable"⟩, .ok ⟨200, "d"⟩⟩
        ⟨⟨some "tk", some "us", some "rf"⟩, false⟩ ⟨"/admin/stats", false, none⟩
        (.err ⟨some 401, none, "first"⟩)).1 =
      .error ⟨some 503, none, "refresh-unavailable"⟩ ∧
    (apiCall ⟨fun _ => .error ⟨some 503, none, "refresh-unavailable"⟩, .ok ⟨200, "d"⟩⟩
        ⟨⟨some "tk", some "us", some "rf"⟩, false⟩ ⟨"/admin/stats", false, none⟩
        (.err ⟨some 401, none, "first"⟩)).2.2.toasts = [] :=
  ⟨rfl, rfl⟩

/-- The status-to-kind table of the specification. -/
def statusTable : List (Nat × ErrKind) :=
  [(400, .BadRequest), (401, .Unauthorized), (403, .Forbidden), (404, .NotFound),
   (409, .Conflict), (422, .Validation), (429, .RateLimited), (500, .ServerError),
   (502, .ServiceUnavailable), (503, .ServiceUnavailable), (504, .ServiceUnavailable)]

/-- C8 (amended): every failed call is mapped to a kind per the fixed
table (statuses per statusTable; otherwise connection-timeout maps to
Timeout, no-connection to NetworkError, anything else to Unknown), and
for every failed call that does not enter the token-refresh branch the
classified error is surfaced to the registered observer exactly once;
on the refresh-failure path nothing is surfaced (the refresh error
propagates unclassified), and on the refresh-success path a failed
retry is classified and surfaced exactly once. -/
theorem c8_classification (e : ErrorInfo) (srv : Server) (st : St) (req : Request) :
    (∀ p : Nat × ErrKind, p ∈ statusTable → e.status = some p.1 →
      classify e = p.2) ∧
    (e.status ∉ ([some 400, some 401, some 403, some 404, some 409, some 422,
        some 429, some 500, some 502, some 503, some 504] : List (Option Nat)) →
      classify e = (if e.code = some "ECONNABORTED" then .Timeout
        else if e.code = some "ERR_NETWORK" then .NetworkError else .Unknown)) ∧
    (req.retryMarker = true ∨ e.status ≠ some 401 →
      (apiCall srv st req (.err e)).2.2.toasts = [classify e]) := by
  refine ⟨?_, ?_, ?_⟩
  · intro p hp hs
    fin_cases hp <;> simp [classify, hs]
  · intro hns
    simp only [List.mem_cons, List.mem_singleton, not_or] at hns
    obtain ⟨h400, h401, h403, h404, h409, h422, h429, h500, h502, h503, h504, -⟩ := hns
    simp [classify, h400, h401, h403, h404, h409, h422, h429, h500, h502, h503, h504]
  · intro h
    have hcond : ¬ (e.status = some 401 ∧ req.retryMarker = false) := by
      rcases h with h | h
      · intro hc; rw [h] at hc; simp at hc
      · intro hc; exact h hc.1
    simp [apiCall, interceptErrorFuel, hcond, errorSwitch]

/-- C8 witness: a concrete 404 failure outside the refresh branch is
classified NotFound and surfaced exactly once. -/
theorem c8_classification_witness :
    ((404, ErrKind.NotFound) ∈ statusTable ∧
      (⟨some 404, none, "missing"⟩ : ErrorInfo).status = some 404 ∧
      ((⟨"/books/9", false, none⟩ : Request).retryMarker = true ∨
        (⟨some 404, none, "missing"⟩ : ErrorInfo).status ≠ some 401)) ∧
    (classify ⟨some 404, none, "missing"⟩ = .NotFound ∧
      (apiCall ⟨fun _ => .ok "x", .ok ⟨200, "d"⟩⟩ ⟨⟨none, none, none⟩, false⟩
          ⟨"/books/9", false, none⟩ (.err ⟨some 404, none, "missing"⟩)).2.2.toasts =
        [classify ⟨some 404, none, "missing"⟩]) :=
  ⟨⟨by decide, rfl, Or.inr (by decide)⟩,
    (c8_classification ⟨some 404, none, "missing"⟩
        ⟨fun _ => .ok "x", .ok ⟨200, "d"⟩⟩ ⟨⟨none, none, none⟩, false⟩
        ⟨"/books/9", false, none⟩).1 (404, .NotFound) (by decide) rfl,
    (c8_classification ⟨some 404, none, "missing"⟩
        ⟨fun _ => .ok "x", .ok ⟨200, "d"⟩⟩ ⟨⟨none, none, none⟩, false⟩
        ⟨"/books/9", false, none⟩).2.2 (Or.inr (by decide))⟩

/-- C9 (counterexample): handleAuthFailure is neither login nor logout
of the Session Store, yet it writes the persisted session slots: it
clears all three on a state that holds a token, a user and a refresh
token. -/
theorem c9_counterexample :
    StorageOp.apply .authFailure ⟨some "t", some "u", some "r"⟩ ≠
      ⟨some "t", some "u", some "r"⟩ ∧
    StorageOp.isLogin .authFailure = false ∧
    StorageOp.authFailure ≠ StorageOp.logout := by
  refine ⟨?_, rfl, ?_⟩ <;> decide

/-- C9 (amended): the writers of the persisted session slots are exactly
AuthContext login and logout, the refresh-success path of the
advancedAxios response interceptor (which stores the new adminToken),
advancedAxios handleAuthFailure, the adminAPI 401 handler, the
axiosExamples 401 handler, and the axiosExamples authAPI login and
logout; the remaining slot-touching operations, the token-attaching
request interceptors and the checkAuthStatus rehydration read, only
read: any operation that changes the slots is one of those eight. -/
theorem c9_writers (op : StorageOp) (s : Storage) (h : op.apply s ≠ s) :
    (∃ t u, op = .login t u) ∨ op = .logout ∨
    (∃ t, op = .refreshStore t) ∨ op = .authFailure ∨ op = .adminAuth401 ∨
    op = .examplesAuth401 ∨ (∃ t u, op = .examplesLogin t u) ∨
    op = .examplesLogout := by
  cases op with
  | login t u => exact .inl ⟨t, u, rfl⟩
  | logout => exact .inr (.inl rfl)
  | attachToken => exact absurd rfl h
  | refreshStore t => exact .inr (.inr (.inl ⟨t, rfl⟩))
  | authFailure => exact .inr (.inr (.inr (.inl rfl)))
  | adminAuth401 => exact .inr (.inr (.inr (.inr (.inl rfl))))
  | examplesAuth401 => exact .inr (.inr (.inr (.inr (.inr (.inl rfl)))))
  | examplesLogin t u =>
    exact .inr (.inr (.inr (.inr (.inr (.inr (.inl ⟨t, u, rfl⟩))))))
  | examplesLogout =>
    exact .inr (.inr (.inr (.inr (.inr (.inr (.inr rfl))))))

/-- C9 witness: handleAuthFailure changes a state holding a token, and
is accordingly among the eight writers. -/
theorem c9_writers_witness :
    StorageOp.apply .authFailure ⟨some "tok", none, none⟩ ≠ ⟨some "tok", none, none⟩ ∧
    ((∃ t u, StorageOp.authFailure = StorageOp.login t u) ∨
      StorageOp.authFailure = StorageOp.logout ∨
      (∃ t, StorageOp.authFailure = StorageOp.refreshStore t) ∨
      StorageOp.authFailure = StorageOp.authFailure ∨
      StorageOp.authFailure = StorageOp.adminAuth401 ∨
      StorageOp.authFailure = StorageOp.examplesAuth401 ∨
      (∃ t u, StorageOp.authFailure = StorageOp.examplesLogin t u) ∨
      StorageOp.authFailure = StorageOp.examplesLogout) :=
  ⟨by decide, c9_writers .authFailure ⟨some "tok", none, none⟩ (by decide)⟩

end Kitabghar
